import Mathlib

/-!
Verification of the jacketed-reactor thermal network simulator
("OBX heat up and down simulation V2.py").

The embedding mirrors the source script:
* `calculate_heat_transfer` — the two-node exchange (source lines 162–204).
  The source fetches `U` and `A` from the `design` dictionaries by exchanger
  name and reads the module-level globals `approach_temp` and `dt`; here the
  fetched `U`, `A` and the global `dt` are explicit parameters, while
  `approach_temp` keeps its source value `0.5`.
* `calculate_insulation_loss` — the ambient-loss function (source lines
  136–158), parameterised the same way over the fetched `U`, `A`, the static
  node's thermal mass and `dt`; the flowing-pipe constants `m_dot_oil` and
  `cp_oil` keep their concrete source values.
* `updateStatus` — the two sequential status `if`s at the top of the main
  loop (source lines 229–234).
* `simStep` / `runSim` — the body of the fixed-timestep main loop
  (source lines 227–318) over an explicit configuration record.

All real arithmetic is carried out over `ℚ`: the source uses Python floats,
but every claim under scrutiny is algebraic/ordering-based and the script's
arithmetic is exact on rational inputs of the shapes considered.
-/

/-- Source line 28: minimum temperature difference for effective heat
transfer (°C). -/
def approach_temp : ℚ := 1/2

/-- Result quadruple of `calculate_heat_transfer`:
`(Q, T_hot_out, T_cold_out, reason)`. -/
structure HTResult where
  Q : ℚ
  T_hot_out : ℚ
  T_cold_out : ℚ
  reason : String
deriving DecidableEq, Repr

/-- Source lines 162–204. The source's sequential mutation of the pair
`(Q, reason)` under each guard is rendered as the stages `Q1/reason1 →
Q2/reason2 → Q3/reason3 → Q4/reason4`, the two components of each stage
guarded by the same condition as in the source. `U`, `A` are the values the
source fetches from `design` for the named exchanger, and `dt` is the
module-level timestep. -/
def calculate_heat_transfer (U A dt : ℚ) (T_hot_in T_cold_in : ℚ)
    (thermal_mass_hot thermal_mass_cold : ℚ) (max_duty : Option ℚ) : HTResult :=
  let delta_T := max (T_hot_in - T_cold_in - approach_temp) 0
  if delta_T ≤ 0 then
    ⟨0, T_hot_in, T_cold_in, "no transfer"⟩
  else
    let Q_area := U * A * delta_T
    let Q_flow_hot := thermal_mass_hot * delta_T / dt
    let Q_flow_cold := thermal_mass_cold * delta_T / dt
    let Q1 := Q_area
    let reason1 := "area"
    let Q2 := if Q_flow_hot < Q1 then Q_flow_hot else Q1
    let reason2 := if Q_flow_hot < Q1 then "hot flow" else reason1
    let Q3 := if Q_flow_cold < Q2 then Q_flow_cold else Q2
    let reason3 := if Q_flow_cold < Q2 then "cold flow" else reason2
    let Q4 := match max_duty with
      | some d => if Q3 > d then d else Q3
      | none => Q3
    let reason4 := match max_duty with
      | some d => if Q3 > d then "device" else reason3
      | none => reason3
    ⟨Q4, T_hot_in - Q4 * dt / thermal_mass_hot,
      T_cold_in + Q4 * dt / thermal_mass_cold, reason4⟩

/-- Choosing the smaller of two candidates by a strict-comparison override
is the binary minimum. -/
lemma ite_lower (a b : ℚ) : (if b < a then b else a) = min a b := by
  rcases le_or_lt a b with h | h
  · rw [if_neg (not_lt.mpr h), min_eq_left h]
  · rw [if_pos h, min_eq_right (le_of_lt h)]

/-- Both outlet temperatures always satisfy the update equations of source
lines 202–203, in the transfer branch and (trivially, with `Q = 0`) in the
no-transfer branch alike. -/
lemma cht_outlets (U A dt T_hot_in T_cold_in tmh tmc : ℚ) (max_duty : Option ℚ) :
    (calculate_heat_transfer U A dt T_hot_in T_cold_in tmh tmc max_duty).T_hot_out
      = T_hot_in - (calculate_heat_transfer U A dt T_hot_in T_cold_in tmh tmc max_duty).Q * dt / tmh ∧
    (calculate_heat_transfer U A dt T_hot_in T_cold_in tmh tmc max_duty).T_cold_out
      = T_cold_in + (calculate_heat_transfer U A dt T_hot_in T_cold_in tmh tmc max_duty).Q * dt / tmc := by
  by_cases h1 : max (T_hot_in - T_cold_in - approach_temp) 0 ≤ 0
  · simp only [calculate_heat_transfer, if_pos h1]
    constructor <;> simp
  · simp only [calculate_heat_transfer, if_neg h1]
    exact ⟨trivial, trivial⟩

/-- C5: a call to the two-node exchange with `hot_in − cold_in ≤ approach_temp`
returns `Q = 0`, both temperatures unchanged, and reason `"no transfer"`. -/
theorem no_transfer_boundary (U A dt T_hot_in T_cold_in tmh tmc : ℚ)
    (max_duty : Option ℚ) (h : T_hot_in - T_cold_in ≤ approach_temp) :
    (calculate_heat_transfer U A dt T_hot_in T_cold_in tmh tmc max_duty).Q = 0 ∧
    (calculate_heat_transfer U A dt T_hot_in T_cold_in tmh tmc max_duty).T_hot_out = T_hot_in ∧
    (calculate_heat_transfer U A dt T_hot_in T_cold_in tmh tmc max_duty).T_cold_out = T_cold_in ∧
    (calculate_heat_transfer U A dt T_hot_in T_cold_in tmh tmc max_duty).reason = "no transfer" := by
  have hmax : max (T_hot_in - T_cold_in - approach_temp) 0 ≤ 0 :=
    max_le (by linarith) le_rfl
  simp only [calculate_heat_transfer, if_pos hmax]
  exact ⟨trivial, trivial, trivial, trivial⟩

/-- C5 witness: the no-transfer boundary at a concrete input. -/
theorem no_transfer_boundary_witness :
    ((25 : ℚ) - 25 ≤ approach_temp) ∧
    (calculate_heat_transfer 200 5 60 25 25 8800 8800 (some 96000)).Q = 0 ∧
    (calculate_heat_transfer 200 5 60 25 25 8800 8800 (some 96000)).T_hot_out = 25 ∧
    (calculate_heat_transfer 200 5 60 25 25 8800 8800 (some 96000)).T_cold_out = 25 ∧
    (calculate_heat_transfer 200 5 60 25 25 8800 8800 (some 96000)).reason = "no transfer" :=
  ⟨by norm_num [approach_temp],
    no_transfer_boundary 200 5 60 25 25 8800 8800 (some 96000)
      (by norm_num [approach_temp])⟩

/-- In the transfer branch (`ΔT > 0`), the realized duty is the minimum of
the applicable candidates. -/
lemma cht_Q_eq (U A dt T_hot_in T_cold_in tmh tmc : ℚ) (max_duty : Option ℚ)
    (hd : approach_temp < T_hot_in - T_cold_in) :
    (calculate_heat_transfer U A dt T_hot_in T_cold_in tmh tmc max_duty).Q =
      (match max_duty with
       | none =>
          min (min (U * A * (T_hot_in - T_cold_in - approach_temp))
            (tmh * (T_hot_in - T_cold_in - approach_temp) / dt))
            (tmc * (T_hot_in - T_cold_in - approach_temp) / dt)
       | some d =>
          min (min (min (U * A * (T_hot_in - T_cold_in - approach_temp))
            (tmh * (T_hot_in - T_cold_in - approach_temp) / dt))
            (tmc * (T_hot_in - T_cold_in - approach_temp) / dt)) d) := by
  have hmax : max (T_hot_in - T_cold_in - approach_temp) 0
      = T_hot_in - T_cold_in - approach_temp := max_eq_left (by linarith)
  have hneg : ¬ T_hot_in - T_cold_in - approach_temp ≤ 0 := by linarith
  simp only [calculate_heat_transfer, hmax, if_neg hneg, gt_iff_lt, ite_lower]
  cases max_duty <;> rfl

/-- In the transfer branch (`ΔT > 0`), the limit reason is determined by the
fixed precedence area → hot flow → cold flow → device, a later candidate
overriding only when strictly smaller than the current minimum and the
device cap overriding only when the duty exceeds it. -/
lemma cht_reason_eq (U A dt T_hot_in T_cold_in tmh tmc : ℚ) (max_duty : Option ℚ)
    (hd : approach_temp < T_hot_in - T_cold_in) :
    (calculate_heat_transfer U A dt T_hot_in T_cold_in tmh tmc max_duty).reason =
      (let Qa := U * A * (T_hot_in - T_cold_in - approach_temp)
       let Qh := tmh * (T_hot_in - T_cold_in - approach_temp) / dt
       let Qc := tmc * (T_hot_in - T_cold_in - approach_temp) / dt
       let base := if Qc < min Qa Qh then "cold flow"
         else if Qh < Qa then "hot flow" else "area"
       match max_duty with
       | none => base
       | some d => if d < min (min Qa Qh) Qc then "device" else base) := by
  have hmax : max (T_hot_in - T_cold_in - approach_temp) 0
      = T_hot_in - T_cold_in - approach_temp := max_eq_left (by linarith)
  have hneg : ¬ T_hot_in - T_cold_in - approach_temp ≤ 0 := by linarith
  simp only [calculate_heat_transfer, hmax, if_neg hneg, gt_iff_lt, ite_lower]
  cases max_duty <;> rfl

/-- C2: whenever transfer occurs, the outlets satisfy
`hot_out = hot_in − Q·dt/cap_hot` and `cold_out = cold_in + Q·dt/cap_cold`,
hence `Q·dt = cap_hot·(hot_in − hot_out) = cap_cold·(cold_out − cold_in)`. -/
theorem energy_conservation (U A dt T_hot_in T_cold_in tmh tmc : ℚ)
    (max_duty : Option ℚ) (htmh : tmh ≠ 0) (htmc : tmc ≠ 0)
    (_htr : approach_temp < T_hot_in - T_cold_in) :
    (calculate_heat_transfer U A dt T_hot_in T_cold_in tmh tmc max_duty).T_hot_out
      = T_hot_in - (calculate_heat_transfer U A dt T_hot_in T_cold_in tmh tmc max_duty).Q * dt / tmh ∧
    (calculate_heat_transfer U A dt T_hot_in T_cold_in tmh tmc max_duty).T_cold_out
      = T_cold_in + (calculate_heat_transfer U A dt T_hot_in T_cold_in tmh tmc max_duty).Q * dt / tmc ∧
    (calculate_heat_transfer U A dt T_hot_in T_cold_in tmh tmc max_duty).Q * dt
      = tmh * (T_hot_in - (calculate_heat_transfer U A dt T_hot_in T_cold_in tmh tmc max_duty).T_hot_out) ∧
    (calculate_heat_transfer U A dt T_hot_in T_cold_in tmh tmc max_duty).Q * dt
      = tmc * ((calculate_heat_transfer U A dt T_hot_in T_cold_in tmh tmc max_duty).T_cold_out - T_cold_in) := by
  obtain ⟨h1, h2⟩ := cht_outlets U A dt T_hot_in T_cold_in tmh tmc max_duty
  refine ⟨h1, h2, ?_, ?_⟩
  · rw [h1]; field_simp
  · rw [h2]; field_simp; ring

/-- C2 witness: energy conservation at a concrete transferring input. -/
theorem energy_conservation_witness :
    ((60 : ℚ) ≠ 0) ∧ ((120 : ℚ) ≠ 0) ∧ (approach_temp < (101/2 : ℚ) - 0) ∧
    ((calculate_heat_transfer 1 1 60 (101/2) 0 60 120 none).T_hot_out
      = (101/2 : ℚ) - (calculate_heat_transfer 1 1 60 (101/2) 0 60 120 none).Q * 60 / 60 ∧
    (calculate_heat_transfer 1 1 60 (101/2) 0 60 120 none).T_cold_out
      = 0 + (calculate_heat_transfer 1 1 60 (101/2) 0 60 120 none).Q * 60 / 120 ∧
    (calculate_heat_transfer 1 1 60 (101/2) 0 60 120 none).Q * 60
      = 60 * ((101/2 : ℚ) - (calculate_heat_transfer 1 1 60 (101/2) 0 60 120 none).T_hot_out) ∧
    (calculate_heat_transfer 1 1 60 (101/2) 0 60 120 none).Q * 60
      = 120 * ((calculate_heat_transfer 1 1 60 (101/2) 0 60 120 none).T_cold_out - 0)) :=
  ⟨by norm_num, by norm_num, by norm_num [approach_temp],
    energy_conservation 1 1 60 (101/2) 0 60 120 none (by norm_num) (by norm_num)
      (by norm_num [approach_temp])⟩

/-- In the no-transfer branch the whole result record is
`(0, hot_in, cold_in, "no transfer")`. -/
lemma cht_zero (U A dt T_hot_in T_cold_in tmh tmc : ℚ) (max_duty : Option ℚ)
    (h : T_hot_in - T_cold_in ≤ approach_temp) :
    calculate_heat_transfer U A dt T_hot_in T_cold_in tmh tmc max_duty
      = ⟨0, T_hot_in, T_cold_in, "no transfer"⟩ := by
  have hmax : max (T_hot_in - T_cold_in - approach_temp) 0 ≤ 0 :=
    max_le (by linarith) le_rfl
  simp only [calculate_heat_transfer, if_pos hmax]

/-- C1: with positive driving force, the realized duty is the minimum of the
applicable candidates and the limit reason follows the fixed precedence
area → hot flow → cold flow → device, each later candidate overriding only
when strictly smaller than the current minimum (the device cap overriding
when the duty exceeds it); including the two concrete scenarios named in the
specification. -/
theorem duty_min_and_reason (U A dt T_hot_in T_cold_in tmh tmc : ℚ)
    (max_duty : Option ℚ) (hd : approach_temp < T_hot_in - T_cold_in) :
    ((calculate_heat_transfer U A dt T_hot_in T_cold_in tmh tmc max_duty).Q =
      (match max_duty with
       | none =>
          min (min (U * A * (T_hot_in - T_cold_in - approach_temp))
            (tmh * (T_hot_in - T_cold_in - approach_temp) / dt))
            (tmc * (T_hot_in - T_cold_in - approach_temp) / dt)
       | some d =>
          min (min (min (U * A * (T_hot_in - T_cold_in - approach_temp))
            (tmh * (T_hot_in - T_cold_in - approach_temp) / dt))
            (tmc * (T_hot_in - T_cold_in - approach_temp) / dt)) d)) ∧
    ((calculate_heat_transfer U A dt T_hot_in T_cold_in tmh tmc max_duty).reason =
      (let Qa := U * A * (T_hot_in - T_cold_in - approach_temp)
       let Qh := tmh * (T_hot_in - T_cold_in - approach_temp) / dt
       let Qc := tmc * (T_hot_in - T_cold_in - approach_temp) / dt
       let base := if Qc < min Qa Qh then "cold flow"
         else if Qh < Qa then "hot flow" else "area"
       match max_duty with
       | none => base
       | some d => if d < min (min Qa Qh) Qc then "device" else base)) ∧
    (calculate_heat_transfer 100 1 60 (11/2) 0 6000 3600 none).reason = "cold flow" ∧
    (calculate_heat_transfer 100 1 60 (11/2) 0 6000 3600 (some 100)).Q = 100 ∧
    (calculate_heat_transfer 100 1 60 (11/2) 0 6000 3600 (some 100)).reason = "device" :=
  ⟨cht_Q_eq U A dt T_hot_in T_cold_in tmh tmc max_duty hd,
   cht_reason_eq U A dt T_hot_in T_cold_in tmh tmc max_duty hd,
   by norm_num [calculate_heat_transfer, approach_temp, max_def],
   by norm_num [calculate_heat_transfer, approach_temp, max_def],
   by norm_num [calculate_heat_transfer, approach_temp, max_def]⟩

/-- C1 witness: the duty-minimum and reason characterisation at a concrete
transferring input. -/
theorem duty_min_and_reason_witness :
    (approach_temp < (11/2 : ℚ) - 0) ∧
    ((calculate_heat_transfer 100 1 60 (11/2) 0 6000 3600 none).Q =
      min (min ((100 : ℚ) * 1 * ((11/2) - 0 - approach_temp))
        ((6000 : ℚ) * ((11/2) - 0 - approach_temp) / 60))
        ((3600 : ℚ) * ((11/2) - 0 - approach_temp) / 60)) :=
  ⟨by norm_num [approach_temp],
    (duty_min_and_reason 100 1 60 (11/2) 0 6000 3600 none
      (by norm_num [approach_temp])).1⟩

/-- With positive driving force, positive `U`, `A`, `dt` and capacitances,
all three rate candidates are positive, so their minimum is positive. -/
lemma cht_min3_pos (U A dt T_hot_in T_cold_in tmh tmc : ℚ)
    (hU : 0 < U) (hA : 0 < A) (hdt : 0 < dt) (htmh : 0 < tmh) (htmc : 0 < tmc)
    (hd : approach_temp < T_hot_in - T_cold_in) :
    0 < min (min (U * A * (T_hot_in - T_cold_in - approach_temp))
      (tmh * (T_hot_in - T_cold_in - approach_temp) / dt))
      (tmc * (T_hot_in - T_cold_in - approach_temp) / dt) := by
  have hΔ : 0 < T_hot_in - T_cold_in - approach_temp := by linarith
  exact lt_min (lt_min (by positivity) (by positivity)) (by positivity)

/-- C7: with positive capacitances and a non-negative device cap when one is
supplied, the exchange returns `Q ≥ 0`, `hot_out ≤ hot_in` and
`cold_out ≥ cold_in`: heat never flows from cold to hot. -/
theorem transfer_nonneg (U A dt T_hot_in T_cold_in tmh tmc : ℚ)
    (max_duty : Option ℚ) (hU : 0 < U) (hA : 0 < A) (hdt : 0 < dt)
    (htmh : 0 < tmh) (htmc : 0 < tmc)
    (hcap : ∀ d, max_duty = some d → 0 ≤ d) :
    0 ≤ (calculate_heat_transfer U A dt T_hot_in T_cold_in tmh tmc max_duty).Q ∧
    (calculate_heat_transfer U A dt T_hot_in T_cold_in tmh tmc max_duty).T_hot_out ≤ T_hot_in ∧
    T_cold_in ≤ (calculate_heat_transfer U A dt T_hot_in T_cold_in tmh tmc max_duty).T_cold_out := by
  rcases le_or_lt (T_hot_in - T_cold_in) approach_temp with h | h
  · rw [cht_zero U A dt T_hot_in T_cold_in tmh tmc max_duty h]
    exact ⟨le_rfl, le_rfl, le_rfl⟩
  · have hQ0 : 0 ≤ (calculate_heat_transfer U A dt T_hot_in T_cold_in tmh tmc max_duty).Q := by
      rw [cht_Q_eq U A dt T_hot_in T_cold_in tmh tmc max_duty h]
      have hm := cht_min3_pos U A dt T_hot_in T_cold_in tmh tmc hU hA hdt htmh htmc h
      cases max_duty with
      | none => exact le_of_lt hm
      | some d => exact le_min (le_of_lt hm) (hcap d rfl)
    obtain ⟨h1, h2⟩ := cht_outlets U A dt T_hot_in T_cold_in tmh tmc max_duty
    have hdiv_h : 0 ≤ (calculate_heat_transfer U A dt T_hot_in T_cold_in tmh tmc max_duty).Q * dt / tmh :=
      div_nonneg (mul_nonneg hQ0 (le_of_lt hdt)) (le_of_lt htmh)
    have hdiv_c : 0 ≤ (calculate_heat_transfer U A dt T_hot_in T_cold_in tmh tmc max_duty).Q * dt / tmc :=
      div_nonneg (mul_nonneg hQ0 (le_of_lt hdt)) (le_of_lt htmc)
    refine ⟨hQ0, ?_, ?_⟩
    · rw [h1]; linarith
    · rw [h2]; linarith

/-- C7 witness: non-negativity of transfer at a concrete input with a device
cap. -/
theorem transfer_nonneg_witness :
    (0 : ℚ) < 100 ∧ (0 : ℚ) < 1 ∧ (0 : ℚ) < 60 ∧ (0 : ℚ) < 6000 ∧ (0 : ℚ) < 3600 ∧
    (∀ d : ℚ, (some (100 : ℚ)) = some d → 0 ≤ d) ∧
    (0 ≤ (calculate_heat_transfer 100 1 60 (11/2) 0 6000 3600 (some 100)).Q ∧
     (calculate_heat_transfer 100 1 60 (11/2) 0 6000 3600 (some 100)).T_hot_out ≤ 11/2 ∧
     (0 : ℚ) ≤ (calculate_heat_transfer 100 1 60 (11/2) 0 6000 3600 (some 100)).T_cold_out) :=
  ⟨by norm_num, by norm_num, by norm_num, by norm_num, by norm_num,
   fun d hd => by rw [← Option.some_inj.mp hd]; norm_num,
   transfer_nonneg 100 1 60 (11/2) 0 6000 3600 (some 100) (by norm_num) (by norm_num)
     (by norm_num) (by norm_num) (by norm_num)
     (fun d hd => by rw [← Option.some_inj.mp hd]; norm_num)⟩

/-- C10: when transfer occurs, the realized duty is bounded by both
flow-limited candidates, so neither outlet crosses the approach boundary of
the opposite inlet within the step. -/
theorem outlets_within_approach (U A dt T_hot_in T_cold_in tmh tmc : ℚ)
    (max_duty : Option ℚ) (hdt : 0 < dt) (htmh : 0 < tmh) (htmc : 0 < tmc)
    (hd : approach_temp < T_hot_in - T_cold_in) :
    T_cold_in + approach_temp ≤ (calculate_heat_transfer U A dt T_hot_in T_cold_in tmh tmc max_duty).T_hot_out ∧
    (calculate_heat_transfer U A dt T_hot_in T_cold_in tmh tmc max_duty).T_cold_out ≤ T_hot_in - approach_temp := by
  have hQle : (calculate_heat_transfer U A dt T_hot_in T_cold_in tmh tmc max_duty).Q ≤
      min (min (U * A * (T_hot_in - T_cold_in - approach_temp))
        (tmh * (T_hot_in - T_cold_in - approach_temp) / dt))
        (tmc * (T_hot_in - T_cold_in - approach_temp) / dt) := by
    rw [cht_Q_eq U A dt T_hot_in T_cold_in tmh tmc max_duty hd]
    cases max_duty with
    | none => exact le_rfl
    | some d => exact min_le_left _ _
  have hQh : (calculate_heat_transfer U A dt T_hot_in T_cold_in tmh tmc max_duty).Q ≤
      tmh * (T_hot_in - T_cold_in - approach_temp) / dt :=
    le_trans hQle (le_trans (min_le_left _ _) (min_le_right _ _))
  have hQc : (calculate_heat_transfer U A dt T_hot_in T_cold_in tmh tmc max_duty).Q ≤
      tmc * (T_hot_in - T_cold_in - approach_temp) / dt :=
    le_trans hQle (min_le_right _ _)
  obtain ⟨h1, h2⟩ := cht_outlets U A dt T_hot_in T_cold_in tmh tmc max_duty
  have heqh : tmh * (T_hot_in - T_cold_in - approach_temp) / dt * dt / tmh
      = T_hot_in - T_cold_in - approach_temp := by
    field_simp
  have heqc : tmc * (T_hot_in - T_cold_in - approach_temp) / dt * dt / tmc
      = T_hot_in - T_cold_in - approach_temp := by
    field_simp
  have hmh : (calculate_heat_transfer U A dt T_hot_in T_cold_in tmh tmc max_duty).Q * dt / tmh
      ≤ tmh * (T_hot_in - T_cold_in - approach_temp) / dt * dt / tmh :=
    div_le_div_of_nonneg_right (mul_le_mul_of_nonneg_right hQh (le_of_lt hdt)) (le_of_lt htmh)
  have hmc : (calculate_heat_transfer U A dt T_hot_in T_cold_in tmh tmc max_duty).Q * dt / tmc
      ≤ tmc * (T_hot_in - T_cold_in - approach_temp) / dt * dt / tmc :=
    div_le_div_of_nonneg_right (mul_le_mul_of_nonneg_right hQc (le_of_lt hdt)) (le_of_lt htmc)
  rw [heqh] at hmh
  rw [heqc] at hmc
  constructor
  · rw [h1]; linarith
  · rw [h2]; linarith

/-- C10 witness: the approach boundary is respected at a concrete input. -/
theorem outlets_within_approach_witness :
    (0 : ℚ) < 60 ∧ (0 : ℚ) < 6000 ∧ (0 : ℚ) < 3600 ∧ (approach_temp < (11/2 : ℚ) - 0) ∧
    ((0 : ℚ) + approach_temp ≤ (calculate_heat_transfer 100 1 60 (11/2) 0 6000 3600 none).T_hot_out ∧
     (calculate_heat_transfer 100 1 60 (11/2) 0 6000 3600 none).T_cold_out ≤ (11/2 : ℚ) - approach_temp) :=
  ⟨by norm_num, by norm_num, by norm_num, by norm_num [approach_temp],
   outlets_within_approach 100 1 60 (11/2) 0 6000 3600 none (by norm_num) (by norm_num)
     (by norm_num) (by norm_num [approach_temp])⟩

/-- C3 counterexample: at `U = 200`, `A = 5`, `dt = 60`, `hot_in = 10`,
`cold_in = 0`, `cap_hot = 60000`, `cap_cold = 120000` the hot-flow candidate
ties the area candidate (`Q_flow_hot = Q_area = 9500`), yet the returned
reason is the earlier-checked `"area"`, not the later-checked `"hot flow"`
demanded by the claim. -/
theorem tie_reason_counterexample :
    ((60000 : ℚ) * ((10 : ℚ) - 0 - approach_temp) / 60
      = (200 : ℚ) * 5 * ((10 : ℚ) - 0 - approach_temp)) ∧
    (calculate_heat_transfer 200 5 60 10 0 60000 120000 none).reason = "area" ∧
    (calculate_heat_transfer 200 5 60 10 0 60000 120000 none).reason ≠ "hot flow" := by
  refine ⟨by norm_num [approach_temp], ?_, ?_⟩
  · norm_num [calculate_heat_transfer, approach_temp, max_def]
  · norm_num [calculate_heat_transfer, approach_temp, max_def]
    decide

/-- C3 amended: whenever two consecutively checked duty candidates tie for
the current minimum, the returned limit reason is the earlier-checked
candidate's reason — a later candidate overrides only when strictly smaller,
and a device cap equal to the realized duty leaves the reason unchanged. -/
theorem tie_reason_keeps_earlier (U A dt T_hot_in T_cold_in tmh tmc : ℚ)
    (hd : approach_temp < T_hot_in - T_cold_in) :
    (tmh * (T_hot_in - T_cold_in - approach_temp) / dt
        = U * A * (T_hot_in - T_cold_in - approach_temp) →
      U * A * (T_hot_in - T_cold_in - approach_temp)
        ≤ tmc * (T_hot_in - T_cold_in - approach_temp) / dt →
      (calculate_heat_transfer U A dt T_hot_in T_cold_in tmh tmc none).reason = "area") ∧
    (tmh * (T_hot_in - T_cold_in - approach_temp) / dt
        < U * A * (T_hot_in - T_cold_in - approach_temp) →
      tmc * (T_hot_in - T_cold_in - approach_temp) / dt
        = tmh * (T_hot_in - T_cold_in - approach_temp) / dt →
      (calculate_heat_transfer U A dt T_hot_in T_cold_in tmh tmc none).reason = "hot flow") ∧
    ((calculate_heat_transfer U A dt T_hot_in T_cold_in tmh tmc
        (some (min (min (U * A * (T_hot_in - T_cold_in - approach_temp))
          (tmh * (T_hot_in - T_cold_in - approach_temp) / dt))
          (tmc * (T_hot_in - T_cold_in - approach_temp) / dt)))).reason
      = (calculate_heat_transfer U A dt T_hot_in T_cold_in tmh tmc none).reason) := by
  have hn := cht_reason_eq U A dt T_hot_in T_cold_in tmh tmc none hd
  simp only at hn
  refine ⟨?_, ?_, ?_⟩
  · intro htie hle
    rw [hn, htie, min_self, if_neg (not_lt.mpr hle), if_neg (lt_irrefl _)]
  · intro hlt htie
    rw [hn, htie, min_eq_right (le_of_lt hlt), if_neg (lt_irrefl _), if_pos hlt]
  · have hs := cht_reason_eq U A dt T_hot_in T_cold_in tmh tmc
      (some (min (min (U * A * (T_hot_in - T_cold_in - approach_temp))
        (tmh * (T_hot_in - T_cold_in - approach_temp) / dt))
        (tmc * (T_hot_in - T_cold_in - approach_temp) / dt))) hd
    simp only at hs
    rw [hs, hn, if_neg (lt_irrefl _)]

/-- C3 amended witness: a hot-flow/area tie records `"area"` at the
counterexample input. -/
theorem tie_reason_keeps_earlier_witness :
    (approach_temp < (10 : ℚ) - 0) ∧
    ((60000 : ℚ) * ((10 : ℚ) - 0 - approach_temp) / 60
      = (200 : ℚ) * 5 * ((10 : ℚ) - 0 - approach_temp)) ∧
    ((200 : ℚ) * 5 * ((10 : ℚ) - 0 - approach_temp)
      ≤ (120000 : ℚ) * ((10 : ℚ) - 0 - approach_temp) / 60) ∧
    (calculate_heat_transfer 200 5 60 10 0 60000 120000 none).reason = "area" :=
  ⟨by norm_num [approach_temp], by norm_num [approach_temp], by norm_num [approach_temp],
    (tie_reason_keeps_earlier 200 5 60 10 0 60000 120000
      (by norm_num [approach_temp])).1
      (by norm_num [approach_temp]) (by norm_num [approach_temp])⟩

/-- Source line 98: `m_dot_oil = rho["oil"] * design["oil_flow_m3_per_h"] / 3600`
with `rho["oil"] = 800` and a flow of 10 m³/h. -/
def m_dot_oil : ℚ := 800 * 10 / 3600

/-- Source line 18: `cp["oil"] = 2200` J/kg·K. -/
def cp_oil : ℚ := 2200

/-- Source line 46: `design["ambient_temp"] = 25` °C. -/
def ambient_temp : ℚ := 25

/-- The three nodes on which the source calls `calculate_insulation_loss`:
`"pipe"` (flowing) and the static `"jacket"` and `"reactor"`. -/
inductive InsComponent
  | pipe
  | jacket
  | reactor
deriving DecidableEq

/-- Source lines 136–158. `U` and `A` are the values fetched from `design`
under the `"<name>_outside"` key, `Tmass` is `thermal_mass[component_name]`
(read only in the static branch) and `dt` the module-level timestep. -/
def calculate_insulation_loss (U A Tmass dt : ℚ) (component : InsComponent)
    (T_current : ℚ) : ℚ × ℚ :=
  let Q_loss := U * A * (T_current - ambient_temp)
  match component with
  | .pipe => (Q_loss, T_current - Q_loss / (m_dot_oil * cp_oil))
  | .jacket => (Q_loss, T_current - Q_loss * dt / Tmass)
  | .reactor => (Q_loss, T_current - Q_loss * dt / Tmass)

/-- C8: on any node with positive `U·A` (and positive thermal mass and
timestep), a temperature below ambient makes the returned
`Q_loss = U·A·(T − T_ambient)` strictly negative and strictly raises the
updated temperature: the loss is a gain and is never clamped to zero. -/
theorem insulation_gain_below_ambient (U A Tmass dt : ℚ) (component : InsComponent)
    (T_current : ℚ) (hU : 0 < U) (hA : 0 < A) (hTm : 0 < Tmass) (hdt : 0 < dt)
    (hT : T_current < ambient_temp) :
    (calculate_insulation_loss U A Tmass dt component T_current).1
      = U * A * (T_current - ambient_temp) ∧
    (calculate_insulation_loss U A Tmass dt component T_current).1 < 0 ∧
    T_current < (calculate_insulation_loss U A Tmass dt component T_current).2 := by
  have hQ : U * A * (T_current - ambient_temp) < 0 :=
    mul_neg_of_pos_of_neg (mul_pos hU hA) (by linarith)
  cases component with
  | pipe =>
    refine ⟨rfl, hQ, ?_⟩
    have hpos : (0 : ℚ) < m_dot_oil * cp_oil := by norm_num [m_dot_oil, cp_oil]
    have hdiv : U * A * (T_current - ambient_temp) / (m_dot_oil * cp_oil) < 0 :=
      div_neg_of_neg_of_pos hQ hpos
    simp only [calculate_insulation_loss]
    linarith
  | jacket =>
    refine ⟨rfl, hQ, ?_⟩
    have hdiv : U * A * (T_current - ambient_temp) * dt / Tmass < 0 :=
      div_neg_of_neg_of_pos (mul_neg_of_neg_of_pos hQ hdt) hTm
    simp only [calculate_insulation_loss]
    linarith
  | reactor =>
    refine ⟨rfl, hQ, ?_⟩
    have hdiv : U * A * (T_current - ambient_temp) * dt / Tmass < 0 :=
      div_neg_of_neg_of_pos (mul_neg_of_neg_of_pos hQ hdt) hTm
    simp only [calculate_insulation_loss]
    linarith

/-- C8 witness: heat gain from ambient at a concrete below-ambient input on
the pipe node. -/
theorem insulation_gain_below_ambient_witness :
    (0 : ℚ) < 2 ∧ (0 : ℚ) < 1 ∧ (0 : ℚ) < 1 ∧ (0 : ℚ) < 60 ∧ ((10 : ℚ) < ambient_temp) ∧
    ((calculate_insulation_loss 2 1 1 60 InsComponent.pipe 10).1
        = (2 : ℚ) * 1 * ((10 : ℚ) - ambient_temp) ∧
     (calculate_insulation_loss 2 1 1 60 InsComponent.pipe 10).1 < 0 ∧
     (10 : ℚ) < (calculate_insulation_loss 2 1 1 60 InsComponent.pipe 10).2) :=
  ⟨by norm_num, by norm_num, by norm_num, by norm_num, by norm_num [ambient_temp],
   insulation_gain_below_ambient 2 1 1 60 InsComponent.pipe 10 (by norm_num) (by norm_num)
     (by norm_num) (by norm_num) (by norm_num [ambient_temp])⟩

/-- The three process states of the main loop (source `status` variable). -/
inductive Status
  | heating
  | reaction
  | cooling
deriving DecidableEq, Repr

/-- The progression order `heating < reaction < cooling`. -/
def statusOrd : Status → ℕ
  | .heating => 0
  | .reaction => 1
  | .cooling => 2

/-- The state-machine part of the driver state: the `status` variable and
`reaction_start_time` (`none` renders Python's initial `None`). -/
structure SMState where
  status : Status
  reaction_start_time : Option ℤ
deriving DecidableEq, Repr

/-- Source lines 229–234: the two sequential status `if`s evaluated at the
start of every timestep. In the unreachable case `status == "reaction"` with
`reaction_start_time` unset (where Python would raise), the guard reads a
default of `0`. -/
def updateStatus (reactor_max_temp : ℚ) (reaction_time : ℤ) (t : ℤ)
    (T_reactor : ℚ) (s : SMState) : SMState :=
  let s1 := if s.status = Status.heating ∧ reactor_max_temp ≤ T_reactor then
      { status := Status.reaction, reaction_start_time := some t }
    else s
  if s1.status = Status.reaction ∧ reaction_time ≤ t - s1.reaction_start_time.getD 0 then
    { s1 with status := Status.cooling }
  else s1

/-- Status sequence along an arbitrary `(time, reactor-temperature)`
trajectory. -/
def smTrace (reactor_max_temp : ℚ) (reaction_time : ℤ)
    (inputs : List (ℤ × ℚ)) (s0 : SMState) : List SMState :=
  inputs.scanl (fun s p => updateStatus reactor_max_temp reaction_time p.1 p.2 s) s0

lemma scanl_head_eq {α β : Type} (f : α → β → α) (a : α) (l : List β) :
    (List.scanl f a l).head? = some a := by
  cases l <;> rfl

lemma chain'_scanl {α β : Type} (f : α → β → α) (R : α → α → Prop)
    (h : ∀ a b, R a (f a b)) : ∀ (l : List β) (a : α), List.Chain' R (List.scanl f a l)
  | [], a => by simp [List.scanl]
  | b :: l, a => by
    rw [List.scanl]
    refine List.Chain'.cons' (chain'_scanl f R h l (f a b)) ?_
    intro y hy
    rw [scanl_head_eq] at hy
    obtain rfl : f a b = y := by simpa using hy
    exact h a b

lemma updateStatus_mono (reactor_max_temp : ℚ) (reaction_time : ℤ) (t : ℤ)
    (T_reactor : ℚ) (s : SMState) :
    statusOrd s.status
      ≤ statusOrd (updateStatus reactor_max_temp reaction_time t T_reactor s).status := by
  obtain ⟨st, rst⟩ := s
  cases st <;> unfold updateStatus <;> split_ifs <;> simp_all [statusOrd] <;>
    split_ifs <;> simp [statusOrd]

lemma updateStatus_heating_gate (rm : ℚ) (rt t : ℤ) (Tr : ℚ) (s : SMState)
    (hst : s.status = Status.heating)
    (hne : (updateStatus rm rt t Tr s).status ≠ Status.heating) : rm ≤ Tr := by
  by_contra hTr
  obtain ⟨st, rst⟩ := s
  simp only at hst
  subst hst
  simp [updateStatus, hTr] at hne

lemma updateStatus_cooling_gate (rm : ℚ) (rt t : ℤ) (Tr : ℚ) (s : SMState)
    (hst : s.status = Status.reaction)
    (hc : (updateStatus rm rt t Tr s).status = Status.cooling) :
    rt ≤ t - s.reaction_start_time.getD 0 := by
  by_contra hlt
  obtain ⟨st, rst⟩ := s
  simp only at hst
  subst hst
  simp [updateStatus, hlt] at hc

lemma updateStatus_cooling_terminal (rm : ℚ) (rt t : ℤ) (Tr : ℚ) (s : SMState)
    (hst : s.status = Status.cooling) : updateStatus rm rt t Tr s = s := by
  obtain ⟨st, rst⟩ := s
  simp only at hst
  subst hst
  simp [updateStatus]

lemma updateStatus_rst_unchanged (rm : ℚ) (rt t : ℤ) (Tr : ℚ) (s : SMState)
    (hst : s.status ≠ Status.heating) :
    (updateStatus rm rt t Tr s).reaction_start_time = s.reaction_start_time := by
  obtain ⟨st, rst⟩ := s
  cases st <;> simp_all [updateStatus] <;> split_ifs <;> rfl

lemma updateStatus_rst_set (rm : ℚ) (rt t : ℤ) (Tr : ℚ) (s : SMState)
    (hst : s.status = Status.heating) (hTr : rm ≤ Tr) :
    (updateStatus rm rt t Tr s).reaction_start_time = some t := by
  obtain ⟨st, rst⟩ := s
  simp only at hst
  subst hst
  simp [updateStatus, hTr]
  split_ifs <;> rfl

lemma updateStatus_heating_stay (rm : ℚ) (rt t : ℤ) (Tr : ℚ) (s : SMState)
    (hst : s.status = Status.heating) (hTr : ¬ rm ≤ Tr) :
    updateStatus rm rt t Tr s = s := by
  obtain ⟨st, rst⟩ := s
  simp only at hst
  subst hst
  simp [updateStatus, hTr]

/-- C4: the process state machine is monotone along `heating < reaction <
cooling` for every temperature trajectory: heating leaves only when the
reactor temperature reaches the configured maximum, reaction leaves for
cooling only once the configured hold duration has elapsed, `cooling` is
terminal, no transition reverts, and `reaction_start_time` is written
exactly once — at the step on which reaction is entered. -/
theorem process_state_machine (reactor_max_temp : ℚ) (reaction_time : ℤ) :
    (∀ (t : ℤ) (T_reactor : ℚ) (s : SMState),
      statusOrd s.status
        ≤ statusOrd (updateStatus reactor_max_temp reaction_time t T_reactor s).status) ∧
    (∀ (t : ℤ) (T_reactor : ℚ) (s : SMState), s.status = Status.heating →
      (updateStatus reactor_max_temp reaction_time t T_reactor s).status ≠ Status.heating →
      reactor_max_temp ≤ T_reactor) ∧
    (∀ (t : ℤ) (T_reactor : ℚ) (s : SMState), s.status = Status.reaction →
      (updateStatus reactor_max_temp reaction_time t T_reactor s).status = Status.cooling →
      reaction_time ≤ t - s.reaction_start_time.getD 0) ∧
    (∀ (t : ℤ) (T_reactor : ℚ) (s : SMState), s.status = Status.cooling →
      updateStatus reactor_max_temp reaction_time t T_reactor s = s) ∧
    (∀ (t : ℤ) (T_reactor : ℚ) (s : SMState), s.status ≠ Status.heating →
      (updateStatus reactor_max_temp reaction_time t T_reactor s).reaction_start_time
        = s.reaction_start_time) ∧
    (∀ (t : ℤ) (T_reactor : ℚ) (s : SMState), s.status = Status.heating →
      reactor_max_temp ≤ T_reactor →
      (updateStatus reactor_max_temp reaction_time t T_reactor s).reaction_start_time
        = some t) ∧
    (∀ (t : ℤ) (T_reactor : ℚ) (s : SMState), s.status = Status.heating →
      ¬ reactor_max_temp ≤ T_reactor →
      updateStatus reactor_max_temp reaction_time t T_reactor s = s) ∧
    (∀ (inputs : List (ℤ × ℚ)) (s0 : SMState),
      List.Chain' (fun a b => statusOrd a.status ≤ statusOrd b.status)
        (smTrace reactor_max_temp reaction_time inputs s0)) := by
  refine ⟨?_, ?_, ?_, ?_, ?_, ?_, ?_, ?_⟩
  · exact fun t Tr s => updateStatus_mono reactor_max_temp reaction_time t Tr s
  · exact fun t Tr s => updateStatus_heating_gate reactor_max_temp reaction_time t Tr s
  · exact fun t Tr s => updateStatus_cooling_gate reactor_max_temp reaction_time t Tr s
  · exact fun t Tr s => updateStatus_cooling_terminal reactor_max_temp reaction_time t Tr s
  · exact fun t Tr s => updateStatus_rst_unchanged reactor_max_temp reaction_time t Tr s
  · exact fun t Tr s => updateStatus_rst_set reactor_max_temp reaction_time t Tr s
  · exact fun t Tr s => updateStatus_heating_stay reactor_max_temp reaction_time t Tr s
  · intro inputs s0
    unfold smTrace
    exact chain'_scanl _ _
      (fun a p => updateStatus_mono reactor_max_temp reaction_time p.1 p.2 a) inputs s0

/-- C4 witness: with the V2 configuration values (`reactor_max = 175`,
`reaction_time = 3600`), a cooling state is left untouched. -/
theorem process_state_machine_witness :
    (SMState.mk Status.cooling (some 0)).status = Status.cooling ∧
    updateStatus 175 3600 0 0 ⟨Status.cooling, some 0⟩ = ⟨Status.cooling, some 0⟩ :=
  ⟨rfl, (process_state_machine 175 3600).2.2.2.1 0 0 ⟨Status.cooling, some 0⟩ rfl⟩

/-- The configuration surface of the simulation: the `design` entries, gain,
geometry-derived `U`/`A` pairs, thermal masses and loop timing read by the
main loop (source sections 1–4). -/
structure Config where
  heater_max_duty : ℚ
  cooler_max_duty : ℚ
  cooling_water_temp : ℚ
  oil_max_temp : ℚ
  reactor_max_temp : ℚ
  reaction_time : ℤ
  K_p : ℚ
  U_heater_oil : ℚ
  A_heater_oil : ℚ
  U_cooler_oil : ℚ
  A_cooler_oil : ℚ
  U_oil_jacket : ℚ
  A_oil_jacket : ℚ
  U_jacket_reactor : ℚ
  A_jacket_reactor : ℚ
  U_pipe_outside : ℚ
  A_pipe_outside : ℚ
  U_jacket_outside : ℚ
  A_jacket_outside : ℚ
  U_reactor_outside : ℚ
  A_reactor_outside : ℚ
  tm_flow : ℚ
  tm_jacket : ℚ
  tm_reactor : ℚ
  tm_cooling : ℚ
  dt : ℕ
  end_time : ℕ

/-- The driver's mutable state between iterations: the threaded oil
temperature, the persistent jacket and reactor temperatures, and the state
machine. -/
structure SimState where
  T_oil : ℚ
  T_jacket : ℚ
  T_reactor : ℚ
  status : Status
  reaction_start_time : Option ℤ

/-- One source `results` row (source lines 298–318). -/
structure SimulationRecord where
  time : ℕ
  T_oil_out_heater : ℚ
  T_oil_after_pipe_to_jacket : ℚ
  T_oil_after_jacket : ℚ
  T_oil_after_pipe_to_heater : ℚ
  T_jacket : ℚ
  T_reactor : ℚ
  Q_heater : ℚ
  Q_cooler : ℚ
  Q_oil_jacket : ℚ
  Q_jacket_reactor : ℚ
  Q_pipe_to_jacket : ℚ
  Q_pipe_to_heater : ℚ
  Q_jacket_loss : ℚ
  Q_reactor_loss : ℚ
  limit_heater : String
  limit_cooler : String
  limit_oil_jacket : String
  limit_jacket_reactor : String
  Q_total_loss : ℚ

/-- Source lines 238–239: the proportional heater exit-temperature target
used while the state is `heating` or `reaction`. -/
def T_heater_exit (oil_max_temp reactor_max_temp K_p T_oil T_reactor : ℚ) : ℚ :=
  let T_error := reactor_max_temp + 5 - T_reactor
  min oil_max_temp (T_oil + K_p * T_error)

/-- One iteration of the main loop (source lines 227–318): status update,
heater-or-cooler exchange, pipe loss, oil→jacket and jacket→reactor
exchanges, jacket/reactor/pipe losses, and the appended record. The 5-tuple
`hc` is `(Q_heater, Q_cooler, new T_oil, limit_heater, limit_cooler)`; as in
the source, both heater and cooler branches assign the third returned
component (`T_cold_out`) to the oil temperature. The pipe insulation calls
pass a dummy thermal mass of `0`, which the pipe branch never reads. -/
def simStep (cfg : Config) (t : ℕ) (s : SimState) : SimState × SimulationRecord :=
  let sm := updateStatus cfg.reactor_max_temp cfg.reaction_time (t : ℤ) s.T_reactor
    ⟨s.status, s.reaction_start_time⟩
  let dtQ : ℚ := (cfg.dt : ℚ)
  let hc : ℚ × ℚ × ℚ × String × String :=
    if sm.status = Status.heating ∨ sm.status = Status.reaction then
      let r := calculate_heat_transfer cfg.U_heater_oil cfg.A_heater_oil dtQ
        (T_heater_exit cfg.oil_max_temp cfg.reactor_max_temp cfg.K_p s.T_oil s.T_reactor)
        s.T_oil cfg.tm_flow cfg.tm_flow (some cfg.heater_max_duty)
      (r.Q, 0, r.T_cold_out, r.reason, "no transfer")
    else if sm.status = Status.cooling then
      let r := calculate_heat_transfer cfg.U_cooler_oil cfg.A_cooler_oil dtQ
        s.T_oil cfg.cooling_water_temp cfg.tm_flow cfg.tm_cooling (some cfg.cooler_max_duty)
      (0, r.Q, r.T_cold_out, "no transfer", r.reason)
    else
      (0, 0, s.T_oil, "no transfer", "no transfer")
  let pipe1 := calculate_insulation_loss cfg.U_pipe_outside cfg.A_pipe_outside 0 dtQ
    InsComponent.pipe hc.2.2.1
  let oj := calculate_heat_transfer cfg.U_oil_jacket cfg.A_oil_jacket dtQ
    pipe1.2 s.T_jacket cfg.tm_flow cfg.tm_jacket none
  let jr := calculate_heat_transfer cfg.U_jacket_reactor cfg.A_jacket_reactor dtQ
    oj.T_cold_out s.T_reactor cfg.tm_jacket cfg.tm_reactor none
  let jloss := calculate_insulation_loss cfg.U_jacket_outside cfg.A_jacket_outside
    cfg.tm_jacket dtQ InsComponent.jacket jr.T_hot_out
  let rloss := calculate_insulation_loss cfg.U_reactor_outside cfg.A_reactor_outside
    cfg.tm_reactor dtQ InsComponent.reactor jr.T_cold_out
  let pipe2 := calculate_insulation_loss cfg.U_pipe_outside cfg.A_pipe_outside 0 dtQ
    InsComponent.pipe oj.T_hot_out
  let record : SimulationRecord :=
    { time := t
      T_oil_out_heater := hc.2.2.1
      T_oil_after_pipe_to_jacket := pipe1.2
      T_oil_after_jacket := oj.T_hot_out
      T_oil_after_pipe_to_heater := pipe2.2
      T_jacket := jloss.2
      T_reactor := rloss.2
      Q_heater := hc.1
      Q_cooler := hc.2.1
      Q_oil_jacket := oj.Q
      Q_jacket_reactor := jr.Q
      Q_pipe_to_jacket := pipe1.1
      Q_pipe_to_heater := pipe2.1
      Q_jacket_loss := jloss.1
      Q_reactor_loss := rloss.1
      limit_heater := hc.2.2.2.1
      limit_cooler := hc.2.2.2.2
      limit_oil_jacket := oj.reason
      limit_jacket_reactor := jr.reason
      Q_total_loss := pipe2.1 + jloss.1 + rloss.1 + pipe1.1 }
  (⟨pipe2.2, jloss.2, rloss.2, sm.status, sm.reaction_start_time⟩, record)

/-- Embedding of Python's `range(0, stop, step)` for positive `step`:
`⌈stop/step⌉` values `0, step, 2·step, …`. -/
def pyRange (stop step : ℕ) : List ℕ :=
  List.range' 0 ((stop + step - 1) / step) step

/-- The record list produced by folding `simStep` over the given times. -/
def runAux (cfg : Config) : SimState → List ℕ → List SimulationRecord
  | _, [] => []
  | s, t :: ts => (simStep cfg t s).2 :: runAux cfg (simStep cfg t s).1 ts

/-- The full simulation: source line 227's `for t in range(0, end_time, dt)`
with one record appended per iteration. -/
def runSim (cfg : Config) (s0 : SimState) : List SimulationRecord :=
  runAux cfg s0 (pyRange cfg.end_time cfg.dt)

/-- Source lines 212–214: all three temperatures start at ambient, status
`heating`, reaction start unset. -/
def initial_state : SimState :=
  ⟨ambient_temp, ambient_temp, ambient_temp, Status.heating, none⟩

lemma runAux_length (cfg : Config) :
    ∀ (ts : List ℕ) (s : SimState), (runAux cfg s ts).length = ts.length
  | [], _ => rfl
  | t :: ts, s => by
    simp [runAux, runAux_length cfg ts]

lemma pyRange_length_of_dvd (stop step : ℕ) (hstep : 0 < step) (hdvd : step ∣ stop) :
    (pyRange stop step).length = stop / step := by
  obtain ⟨k, rfl⟩ := hdvd
  rw [pyRange, List.length_range']
  have h1 : step * k + step - 1 = (step - 1) + step * k := by
    omega
  rw [h1, Nat.add_mul_div_left _ _ hstep, Nat.div_eq_of_lt (by omega),
    Nat.mul_div_cancel_left _ hstep]
  omega

lemma pyRange_mem_lt (stop step : ℕ) (hstep : 0 < step) :
    ∀ t ∈ pyRange stop step, t < stop := by
  intro t ht
  rw [pyRange, List.mem_range'] at ht
  obtain ⟨i, hi, rfl⟩ := ht
  have h1 : ((stop + step - 1) / step) * step ≤ stop + step - 1 :=
    Nat.div_mul_le_self _ _
  have h3 : (i + 1) * step ≤ ((stop + step - 1) / step) * step :=
    Nat.mul_le_mul_right _ hi
  have h4 : (i + 1) * step = i * step + step := by ring
  have h5 : step * i = i * step := Nat.mul_comm _ _
  omega

/-- C6: the heater exit-temperature target is
`min(oil_max_temp, T_oil + K_p·((reactor_max_temp + 5) − T_reactor))`, hence
never exceeds the configured oil maximum for any `T_oil`, `T_reactor`; and
in any step whose (updated) state is `heating` or `reaction` the driver's
heater duty comes from the exchange driven by exactly this target. -/
theorem heater_target_clamped :
    (∀ oil_max_temp reactor_max_temp K_p T_oil T_reactor : ℚ,
      T_heater_exit oil_max_temp reactor_max_temp K_p T_oil T_reactor
        = min oil_max_temp (T_oil + K_p * ((reactor_max_temp + 5) - T_reactor)) ∧
      T_heater_exit oil_max_temp reactor_max_temp K_p T_oil T_reactor ≤ oil_max_temp) ∧
    (∀ (cfg : Config) (t : ℕ) (s : SimState),
      ((updateStatus cfg.reactor_max_temp cfg.reaction_time (t : ℤ) s.T_reactor
          ⟨s.status, s.reaction_start_time⟩).status = Status.heating ∨
       (updateStatus cfg.reactor_max_temp cfg.reaction_time (t : ℤ) s.T_reactor
          ⟨s.status, s.reaction_start_time⟩).status = Status.reaction) →
      (simStep cfg t s).2.Q_heater
        = (calculate_heat_transfer cfg.U_heater_oil cfg.A_heater_oil (cfg.dt : ℚ)
            (T_heater_exit cfg.oil_max_temp cfg.reactor_max_temp cfg.K_p s.T_oil s.T_reactor)
            s.T_oil cfg.tm_flow cfg.tm_flow (some cfg.heater_max_duty)).Q) := by
  constructor
  · intro oil_max_temp reactor_max_temp K_p T_oil T_reactor
    exact ⟨rfl, min_le_left _ _⟩
  · intro cfg t s h
    simp only [simStep, if_pos h]

/-- Concrete configuration used as witness input: the V2 design's rational
parameters, with the geometry-derived (irrational, π-valued) areas and
thermal masses rounded to nearby rationals. -/
def sampleConfig : Config where
  heater_max_duty := 96000
  cooler_max_duty := 60000
  cooling_water_temp := 10
  oil_max_temp := 200
  reactor_max_temp := 175
  reaction_time := 3600
  K_p := 92
  U_heater_oil := 200
  A_heater_oil := 5
  U_cooler_oil := 400
  A_cooler_oil := 3
  U_oil_jacket := 150
  A_oil_jacket := 9
  U_jacket_reactor := 100
  A_jacket_reactor := 9
  U_pipe_outside := 2
  A_pipe_outside := 1
  U_jacket_outside := 2
  A_jacket_outside := 9
  U_reactor_outside := 3
  A_reactor_outside := 4
  tm_flow := 293333
  tm_jacket := 553000
  tm_reactor := 1548000
  tm_cooling := 1046500
  dt := 60
  end_time := 21600

/-- C6 witness: at the initial state (heating, reactor at ambient) the
heater duty is the target-driven exchange. -/
theorem heater_target_clamped_witness :
    ((updateStatus sampleConfig.reactor_max_temp sampleConfig.reaction_time ((0 : ℕ) : ℤ)
        initial_state.T_reactor
        ⟨initial_state.status, initial_state.reaction_start_time⟩).status = Status.heating ∨
     (updateStatus sampleConfig.reactor_max_temp sampleConfig.reaction_time ((0 : ℕ) : ℤ)
        initial_state.T_reactor
        ⟨initial_state.status, initial_state.reaction_start_time⟩).status = Status.reaction) ∧
    (simStep sampleConfig 0 initial_state).2.Q_heater
      = (calculate_heat_transfer sampleConfig.U_heater_oil sampleConfig.A_heater_oil
          (sampleConfig.dt : ℚ)
          (T_heater_exit sampleConfig.oil_max_temp sampleConfig.reactor_max_temp
            sampleConfig.K_p initial_state.T_oil initial_state.T_reactor)
          initial_state.T_oil sampleConfig.tm_flow sampleConfig.tm_flow
          (some sampleConfig.heater_max_duty)).Q := by
  have hh : (updateStatus sampleConfig.reactor_max_temp sampleConfig.reaction_time ((0 : ℕ) : ℤ)
      initial_state.T_reactor
      ⟨initial_state.status, initial_state.reaction_start_time⟩).status = Status.heating := by
    norm_num [updateStatus, initial_state, sampleConfig, ambient_temp]
  exact ⟨Or.inl hh, heater_target_clamped.2 sampleConfig 0 initial_state (Or.inl hh)⟩

/-- C9: the driver iterates over `t = 0, dt, 2·dt, …` strictly below
`end_time` and appends exactly one record per iteration, so with
`dt ∣ end_time` the run yields exactly `end_time/dt` records and every
mapped time-series column has that same length. -/
theorem driver_record_count (cfg : Config) (s0 : SimState)
    (hdt : 0 < cfg.dt) (hdvd : cfg.dt ∣ cfg.end_time) :
    (∀ t ∈ pyRange cfg.end_time cfg.dt, t < cfg.end_time) ∧
    (runSim cfg s0).length = cfg.end_time / cfg.dt ∧
    (∀ (α : Type) (f : SimulationRecord → α),
      ((runSim cfg s0).map f).length = cfg.end_time / cfg.dt) := by
  have hlen : (runSim cfg s0).length = cfg.end_time / cfg.dt := by
    rw [runSim, runAux_length, pyRange_length_of_dvd _ _ hdt hdvd]
  exact ⟨pyRange_mem_lt _ _ hdt, hlen, fun α f => by rw [List.length_map, hlen]⟩

/-- C9 witness: with `dt = 60`, `end_time = 21600` the run has exactly 360
records. -/
theorem driver_record_count_witness :
    0 < sampleConfig.dt ∧ sampleConfig.dt ∣ sampleConfig.end_time ∧
    (runSim sampleConfig initial_state).length = sampleConfig.end_time / sampleConfig.dt :=
  ⟨by norm_num [sampleConfig], by norm_num [sampleConfig],
   (driver_record_count sampleConfig initial_state (by norm_num [sampleConfig])
     (by norm_num [sampleConfig])).2.1⟩
